import Mathlib

/-!
Verification of the `DatasetTransformer` (json-stat2 decoder) of the
housing-prices-fi repository (`src/transformer/DatasetTransformer.ts`).

The decoder reads a parsed json-stat2 payload (flat value array plus
per-dimension category metadata), resolves the four dimension roles
(`Vuosi` = period, `Postinumero` = area, `Talotyyppi` = category,
`Tiedot` = metric), computes row-major strides, traverses the cartesian
product of period × area × category, applies the sparse status/override
mask and the source-specific building-type mapping, and emits price
records plus a skip count.

The embedding below mirrors the TypeScript source.  JavaScript numbers
carried in the value array are modelled as exact rationals (`ℚ`);
`undefined` array reads (out-of-range indices) are modelled via
`List.get?`; the JavaScript object holding the status map is modelled as
an association list with first-match lookup (JSON object keys are
unique); the truthiness test `if (statusMap[key])` is modelled
faithfully: an entry is "truthy" only when its string is non-empty.
`JSON.parse` itself is outside the model: `JsonStat` is the parsed
document, with the field types the source declares.
-/

/-- A single quote character, used verbatim in error messages. -/
def quoteChar : String := Char.toString (Char.ofNat 39)

/-- Known metric code for the mean price (`METRIC_PRICE` in the source). -/
def METRIC_PRICE : String := "keskihinta_aritm_nw"

/-- Known metric code for the transaction count (`METRIC_COUNT` in the source). -/
def METRIC_COUNT : String := "lkm_julk20"

/-- `dimension[dimId].category` object: may lack the `index` field. -/
structure CategoryObj where
  index : Option (List (String × Int))
deriving DecidableEq

/-- One entry of the payload's `dimension` object: may lack `category`. -/
structure DimensionObj where
  category : Option CategoryObj
deriving DecidableEq

/-- The parsed json-stat2 document, with the fields the transformer reads.
`klass` models the `class` field (`class` is a Lean keyword).  A missing
`status` field is the empty map (the source defaults it with `?? {}`). -/
structure JsonStat where
  klass : String
  id : List String
  size : List Nat
  dimension : List (String × DimensionObj)
  value : List (Option ℚ)
  status : List (String × String)
deriving DecidableEq

/-- `BuildingTypeMapping` from `model/Models.ts`. -/
structure BuildingTypeMapping where
  sourceCode : String
  sourceLabel : String
  canonicalCode : String
deriving DecidableEq

/-- `PriceRecord` as pushed by the transformer.  The `date` field holds the
ISO-8601 instant string the source passes to `new Date(...)`, i.e. the
first-of-year UTC midnight instant. -/
structure PriceRecord where
  postalCode : String
  buildingType : String
  date : String
  pricePerSqm : Option ℚ
  transactionCount : Option Int
  sourceName : String
deriving DecidableEq

/-- `TransformResult` returned by `transform`. -/
structure TransformResult where
  records : List PriceRecord
  skipped : Nat
  sourceName : String
  buildingTypeMappings : List BuildingTypeMapping
deriving DecidableEq

/-- JavaScript object property read `obj[key]` on a JSON-parsed object:
first (unique) matching key, `undefined` (`none`) otherwise. -/
def assocLookup {α : Type} (m : List (String × α)) (k : String) : Option α :=
  (m.find? (fun e => e.1 == k)).map (fun e => e.2)

/-- Truthiness of `statusMap[key]` in the source's
`if (statusMap[statusKey])`: a missing entry (`undefined`) and the empty
string are falsy; every other string is truthy. -/
def statusTruthy (statusMap : List (String × String)) (key : String) : Bool :=
  match assocLookup statusMap key with
  | none => false
  | some s => !(s == "")

/-- `Object.entries(indexMap).sort(([, a], [, b]) => a - b)`: stable sort of
the (code, position) entries by ascending position.  `Array.prototype.sort`
is stable, and a stable sort by a total preorder is a uniquely determined
function of the input list, so the stable `insertionSort` used here
computes exactly the engine's result. -/
def sortByPosition (entries : List (String × Int)) : List (String × Int) :=
  entries.insertionSort (fun a b => a.2 ≤ b.2)

/-- The `dim?.category?.index` optional-chain read for one dimension id. -/
def categoryIndexOf (dimensionObj : List (String × DimensionObj)) (dimId : String) :
    Option (List (String × Int)) :=
  match assocLookup dimensionObj dimId with
  | none => none
  | some dim =>
    match dim.category with
    | none => none
    | some cat => cat.index

/-- `buildDimensionLookup`: for each dimension id, the ordered list of its
category codes (codes sorted by their position value); the first dimension
lacking a category index aborts the decode. -/
def buildDimensionLookup (dimensionObj : List (String × DimensionObj)) :
    List String → Except String (List (List String))
  | [] => .ok []
  | dimId :: rest =>
    match categoryIndexOf dimensionObj dimId with
    | none => .error ("Dimension " ++ quoteChar ++ dimId ++ quoteChar ++ " missing category index")
    | some indexMap =>
      match buildDimensionLookup dimensionObj rest with
      | .error e => .error e
      | .ok tails => .ok ((sortByPosition indexMap).map (fun e => e.1) :: tails)

/-- `computeStrides`: `stride[last] = 1`,
`stride[i] = stride[i+1] * size[i+1]`, i.e. `stride[i]` is the product of
the sizes after position `i`. -/
def computeStrides : List Nat → List Nat
  | [] => []
  | _ :: rest => rest.prod :: computeStrides rest

set_option linter.unusedVariables false in
/-- `computeIndex`: flat offset `Σ indices[d] * strides[dimPositions[d]]`.
The `numDims` argument is carried (and unused) exactly as in the source. -/
def computeIndex (indices : List Nat) (dimPositions : List Nat) (strides : List Nat)
    (numDims : Nat) : Nat :=
  (indices.zip dimPositions).foldl (fun acc p => acc + p.1 * strides.getD p.2 0) 0

/-- `getValue`: probe the flat array at `baseIndex + metricOffset * metricStride`;
a truthy status entry for that offset forces `null`; otherwise the literal
array value, with `null` and `undefined` (out of range) both yielding `null`. -/
def getValue (values : List (Option ℚ)) (baseIndex : Nat) (metricOffset : Nat)
    (metricStride : Nat) (statusMap : List (String × String)) : Option ℚ :=
  let idx := baseIndex + metricOffset * metricStride
  let statusKey := toString idx
  if statusTruthy statusMap statusKey then
    none
  else
    match values.get? idx with
    | some (some v) => some v
    | _ => none

/-- JavaScript `Math.round`: nearest integer, halves rounded toward +∞. -/
def jsRound (q : ℚ) : Int := Rat.floor (q + 1 / 2)

/-- The `Map` built from the mappings (`new Map(...)` keeps the last entry
for a duplicated key) followed by `.get(code)`. -/
def btMapGet (mappings : List BuildingTypeMapping) (code : String) : Option String :=
  (((mappings.map (fun m => (m.sourceCode, m.canonicalCode))).reverse.find?
    (fun e => e.1 == code)).map (fun e => e.2))

/-- Everything the traversal loops of `transform` close over. -/
structure TraversalCtx where
  values : List (Option ℚ)
  statusMap : List (String × String)
  strides : List Nat
  numDims : Nat
  yearDimIdx : Nat
  postalDimIdx : Nat
  typeDimIdx : Nat
  metricDimIdx : Nat
  yearCodes : List String
  postalCodes : List String
  typeCodes : List String
  priceMetricIdx : Option Nat
  countMetricIdx : Option Nat
  mappings : List BuildingTypeMapping
  sourceName : String
deriving DecidableEq

/-- The base flat offset of the cell `(yi, pi, ti)` with metric index 0. -/
def cellBaseIndex (c : TraversalCtx) (yi pi ti : Nat) : Nat :=
  computeIndex [yi, pi, ti, 0] [c.yearDimIdx, c.postalDimIdx, c.typeDimIdx, c.metricDimIdx]
    c.strides c.numDims

/-- One metric's resolved value for the cell `(yi, pi, ti)`: `null` when the
metric is absent from the dataset (`indexOf` returned -1), otherwise a
`getValue` probe. -/
def cellMetricValue (c : TraversalCtx) (yi pi ti : Nat) (metricIdx : Option Nat) : Option ℚ :=
  match metricIdx with
  | none => none
  | some k =>
    getValue c.values (cellBaseIndex c yi pi ti) k (c.strides.getD c.metricDimIdx 0) c.statusMap

/-- The body of the innermost loop of `transform` for the cell
`t = (yi, pi, ti)`: `none` when the cell is skipped (unmapped or falsy
building type, or both metrics null), otherwise the emitted record.  The
source's local consts (`typeCode`, `priceValue`, `countValue`, ...) are
inlined. -/
def processCell (c : TraversalCtx) (t : Nat × Nat × Nat) : Option PriceRecord :=
  match btMapGet c.mappings (c.typeCodes.getD t.2.2 "") with
  | none => none
  | some buildingType =>
    if buildingType == "" then
      none
    else
      if (cellMetricValue c t.1 t.2.1 t.2.2 c.priceMetricIdx).isNone &&
          (cellMetricValue c t.1 t.2.1 t.2.2 c.countMetricIdx).isNone then
        none
      else
        some { postalCode := c.postalCodes.getD t.2.1 ""
               buildingType := buildingType
               date := c.yearCodes.getD t.1 "" ++ "-01-01T00:00:00Z"
               pricePerSqm := cellMetricValue c t.1 t.2.1 t.2.2 c.priceMetricIdx
               transactionCount :=
                 (cellMetricValue c t.1 t.2.1 t.2.2 c.countMetricIdx).map jsRound
               sourceName := c.sourceName }

/-- The nested loop order of `transform`: period (year) outermost, then
area (postal code), then category (building type), each ascending. -/
def tripleEnum (ny np nt : Nat) : List (Nat × Nat × Nat) :=
  (List.range ny).flatMap (fun yi =>
    (List.range np).flatMap (fun pi =>
      (List.range nt).map (fun ti => (yi, pi, ti))))

/-- The traversal context `transform` assembles after its schema checks. -/
def mkCtx (js : JsonStat) (dims : List (List String)) (yI pI tI mI : Nat)
    (mappings : List BuildingTypeMapping) (sourceName : String) : TraversalCtx :=
  { values := js.value
    statusMap := js.status
    strides := computeStrides js.size
    numDims := js.id.length
    yearDimIdx := yI
    postalDimIdx := pI
    typeDimIdx := tI
    metricDimIdx := mI
    yearCodes := dims.getD yI []
    postalCodes := dims.getD pI []
    typeCodes := dims.getD tI []
    priceMetricIdx := (dims.getD mI []).findIdx? (fun s => s == METRIC_PRICE)
    countMetricIdx := (dims.getD mI []).findIdx? (fun s => s == METRIC_COUNT)
    mappings := mappings
    sourceName := sourceName }

/-- The loop nest of `transform`, cell by cell in traversal order. -/
def runCells (c : TraversalCtx) : List (Option PriceRecord) :=
  (tripleEnum c.yearCodes.length c.postalCodes.length c.typeCodes.length).map (processCell c)

/-- `DatasetTransformer.transform`, operating on the parsed payload: schema
checks, dimension lookup construction, metric resolution, stride
computation, cartesian traversal, and the final result assembly. -/
def transform (js : JsonStat) (sourceName : String)
    (buildingTypeMappings : List BuildingTypeMapping) : Except String TransformResult :=
  if js.klass ≠ "dataset" then
    .error ("Unexpected json-stat2 class: " ++ js.klass)
  else
    match buildDimensionLookup js.dimension js.id with
    | .error e => .error e
    | .ok dims =>
      match js.id.findIdx? (fun s => s == "Vuosi"),
            js.id.findIdx? (fun s => s == "Postinumero"),
            js.id.findIdx? (fun s => s == "Talotyyppi"),
            js.id.findIdx? (fun s => s == "Tiedot") with
      | some yI, some pI, some tI, some mI =>
        let metricCodes := dims.getD mI []
        if (metricCodes.findIdx? (fun s => s == METRIC_PRICE)).isNone &&
            (metricCodes.findIdx? (fun s => s == METRIC_COUNT)).isNone then
          .error ("Neither price nor count metric found. Available: " ++
            String.intercalate ", " metricCodes)
        else
          let cells := runCells (mkCtx js dims yI pI tI mI buildingTypeMappings sourceName)
          .ok { records := cells.filterMap id
                skipped := cells.countP (fun o => o.isNone)
                sourceName := sourceName
                buildingTypeMappings := buildingTypeMappings }
      | _, _, _, _ =>
        .error ("Missing expected dimension(s). Found: " ++ String.intercalate ", " js.id)

/-! ## Specification-side definitions

These do not come from the source: they state properties the source is
compared against (traversal order, the schema-error characterization, a
substring test for error-message content). -/

/-- Strict lexicographic order on (period, area, category) position
triples: period outermost, then area, then category. -/
def lexLT (a b : Nat × Nat × Nat) : Prop :=
  a.1 < b.1 ∨ (a.1 = b.1 ∧ (a.2.1 < b.2.1 ∨ (a.2.1 = b.2.1 ∧ a.2.2 < b.2.2)))

/-- The traversal triples whose cell emits a record (is not skipped). -/
def emittedTriples (c : TraversalCtx) : List (Nat × Nat × Nat) :=
  (tripleEnum c.yearCodes.length c.postalCodes.length c.typeCodes.length).filter
    (fun t => (processCell c t).isSome)

/-- Whether `pat` starts the character list `s`. -/
def startsWithChars : List Char → List Char → Bool
  | _, [] => true
  | [], _ :: _ => false
  | c :: cs, p :: ps => (c == p) && startsWithChars cs ps

/-- Whether `pat` occurs contiguously inside the character list `s`. -/
def occursInChars : List Char → List Char → Bool
  | [], pat => startsWithChars [] pat
  | c :: cs, pat => startsWithChars (c :: cs) pat || occursInChars cs pat

/-- Whether `pat` occurs as a substring of `s`. -/
def containsStr (s pat : String) : Bool := occursInChars s.toList pat.toList

/-- Some entry of the id list has no reachable category index. -/
def missingCategoryIndex (js : JsonStat) : Prop :=
  ∃ d ∈ js.id, categoryIndexOf js.dimension d = none

/-- One of the four required dimension roles is absent from the id list. -/
def missingRole (js : JsonStat) : Prop :=
  js.id.findIdx? (fun s => s == "Vuosi") = none ∨
  js.id.findIdx? (fun s => s == "Postinumero") = none ∨
  js.id.findIdx? (fun s => s == "Talotyyppi") = none ∨
  js.id.findIdx? (fun s => s == "Tiedot") = none

/-- Neither recognized metric identifier occurs in the metric dimension's
category list (stated over the computed dimension lookup). -/
def noRecognizedMetric (js : JsonStat) : Prop :=
  ∀ dims mI, buildDimensionLookup js.dimension js.id = .ok dims →
    js.id.findIdx? (fun s => s == "Tiedot") = some mI →
    ((dims.getD mI []).findIdx? (fun s => s == METRIC_PRICE) = none ∧
      (dims.getD mI []).findIdx? (fun s => s == METRIC_COUNT) = none)

/-- The spec's schema-error taxonomy: unrecognized dataset class, missing
dimension role, dimension lacking a category index, or no recognized
metric present. -/
def schemaProblem (js : JsonStat) : Prop :=
  js.klass ≠ "dataset" ∨ missingCategoryIndex js ∨ missingRole js ∨ noRecognizedMetric js

/-! ## Concrete payloads

Small datasets used by witnesses and counterexamples, built the same way
the repository's own test helper `buildJsonStat2` builds them. -/

/-- Category index assigning positions 0, 1, ... in list order. -/
def mkIndex (codes : List String) : List (String × Int) :=
  (codes.enum).map (fun p => (p.2, (p.1 : Int)))

/-- A dimension whose category index lists `codes` in order. -/
def mkDim (codes : List String) : DimensionObj :=
  { category := some { index := some (mkIndex codes) } }

/-- A well-formed payload with the four statfin dimension roles. -/
def mkJs (years postals types metrics : List String) (values : List (Option ℚ))
    (status : List (String × String)) : JsonStat :=
  { klass := "dataset"
    id := ["Vuosi", "Postinumero", "Talotyyppi", "Tiedot"]
    size := [years.length, postals.length, types.length, metrics.length]
    dimension := [("Vuosi", mkDim years), ("Postinumero", mkDim postals),
                  ("Talotyyppi", mkDim types), ("Tiedot", mkDim metrics)]
    value := values
    status := status }

/-- `STATFIN_BUILDING_TYPE_MAPPINGS` from `StatfinBuildingTypes.ts`. -/
def statfinMappings : List BuildingTypeMapping :=
  [ { sourceCode := "1", sourceLabel := "Blocks of flats, one-room flat",
      canonicalCode := "apartment_1r" },
    { sourceCode := "2", sourceLabel := "Blocks of flats, two-room flat",
      canonicalCode := "apartment_2r" },
    { sourceCode := "3", sourceLabel := "Blocks of flats, three-room flat+",
      canonicalCode := "apartment_3r_plus" },
    { sourceCode := "5", sourceLabel := "Terraced houses total",
      canonicalCode := "terraced" } ]

/-- The happy-path dataset of the repository's test suite: one year, one
postal code, four mapped building types, both metrics populated. -/
def jsHappy : JsonStat :=
  mkJs ["2024"] ["00400"] ["1", "2", "3", "5"] [METRIC_PRICE, METRIC_COUNT]
    [some 4668, some 29, some 3939, some 63, some 4175, some 60, some 3500, some 10] []

/-- A payload lacking the metric role `Tiedot` entirely. -/
def jsNoMetricDim : JsonStat :=
  { klass := "dataset"
    id := ["Vuosi", "Postinumero", "Talotyyppi"]
    size := [1, 1, 1]
    dimension := [("Vuosi", mkDim ["2024"]), ("Postinumero", mkDim ["00100"]),
                  ("Talotyyppi", mkDim ["1"])]
    value := [some 1]
    status := [] }

/-- The empty dataset of the repository's test suite: the period dimension
declares zero categories, the value array is empty. -/
def jsEmptyYears : JsonStat :=
  { klass := "dataset"
    id := ["Vuosi", "Postinumero", "Talotyyppi", "Tiedot"]
    size := [0, 1, 1, 2]
    dimension := [("Vuosi", mkDim []), ("Postinumero", mkDim ["00100"]),
                  ("Talotyyppi", mkDim ["1"]), ("Tiedot", mkDim [METRIC_PRICE, METRIC_COUNT])]
    value := []
    status := [] }

/-- A payload whose declared sizes multiply to 2 but whose value array is
empty: every probe lands past the end of the array. -/
def jsShortValues : JsonStat :=
  mkJs ["2024"] ["00400"] ["1"] [METRIC_PRICE, METRIC_COUNT] [] []

/-- A payload exposing only the price metric. -/
def jsPriceOnly : JsonStat :=
  mkJs ["2024"] ["00400"] ["1"] [METRIC_PRICE] [some 4668] []

/-- A payload exposing only the count metric. -/
def jsCountOnly : JsonStat :=
  mkJs ["2024"] ["00400"] ["1"] [METRIC_COUNT] [some 29] []

/-! ## Helper lemmas -/

theorem length_filterMap_id_add_countP {α : Type} (l : List (Option α)) :
    (l.filterMap id).length + l.countP (fun o => o.isNone) = l.length := by
  induction l with
  | nil => simp
  | cons a t ih =>
    cases a <;> simp [List.filterMap_cons, List.countP_cons] <;> omega

theorem tripleEnum_length (a b c : Nat) : (tripleEnum a b c).length = a * (b * c) := by
  simp [tripleEnum, List.length_flatMap, Function.comp_def, List.map_const]

theorem mem_tripleEnum {a b c : Nat} {t : Nat × Nat × Nat} :
    t ∈ tripleEnum a b c ↔ t.1 < a ∧ t.2.1 < b ∧ t.2.2 < c := by
  obtain ⟨y, p, ti⟩ := t
  simp only [tripleEnum, List.mem_flatMap, List.mem_map, List.mem_range]
  constructor
  · rintro ⟨yi, hyi, pi, hpi, ti', hti, heq⟩
    injection heq with h1 h23
    injection h23 with h2 h3
    subst h1; subst h2; subst h3
    exact ⟨hyi, hpi, hti⟩
  · rintro ⟨hy, hp, ht⟩
    exact ⟨y, hy, p, hp, ti, ht, rfl⟩

theorem computeStrides_length (sizes : List Nat) :
    (computeStrides sizes).length = sizes.length := by
  induction sizes with
  | nil => rfl
  | cons s rest ih => simp [computeStrides, ih]

theorem computeStrides_last (sizes : List Nat) (h : sizes ≠ []) :
    (computeStrides sizes).getD (sizes.length - 1) 0 = 1 := by
  induction sizes with
  | nil => exact absurd rfl h
  | cons s rest ih =>
    cases rest with
    | nil => rfl
    | cons b t =>
      have := ih (by simp)
      simpa [computeStrides, List.getD_cons_succ] using this

theorem computeStrides_step (sizes : List Nat) (i : Nat) (h : i + 1 < sizes.length) :
    (computeStrides sizes).getD i 0 =
      (computeStrides sizes).getD (i + 1) 0 * sizes.getD (i + 1) 0 := by
  induction sizes generalizing i with
  | nil => simp at h
  | cons s rest ih =>
    cases i with
    | zero =>
      cases rest with
      | nil => simp at h
      | cons b t => simp [computeStrides, List.prod_cons, Nat.mul_comm]
    | succ j =>
      have h' : j + 1 < rest.length := by
        simp only [List.length_cons] at h; omega
      simpa [computeStrides, List.getD_cons_succ] using ih j h'

theorem foldl_add_mul (strides : List Nat) (l : List (Nat × Nat)) (a : Nat) :
    l.foldl (fun acc p => acc + p.1 * strides.getD p.2 0) a =
      a + (l.map (fun p => p.1 * strides.getD p.2 0)).sum := by
  induction l generalizing a with
  | nil => simp
  | cons x xs ih => rw [List.foldl_cons, ih, List.map_cons, List.sum_cons, Nat.add_assoc]

theorem computeIndex_eq_sum (indices dimPositions strides : List Nat) (numDims : Nat) :
    computeIndex indices dimPositions strides numDims =
      ((indices.zip dimPositions).map (fun p => p.1 * strides.getD p.2 0)).sum := by
  unfold computeIndex
  rw [foldl_add_mul]
  simp

theorem getValue_offset_congr (values : List (Option ℚ)) (sm : List (String × String))
    (b mo ms b' mo' ms' : Nat) (h : b + mo * ms = b' + mo' * ms') :
    getValue values b mo ms sm = getValue values b' mo' ms' sm := by
  unfold getValue
  rw [h]

theorem getValue_out_of_range (values : List (Option ℚ)) (b mo ms : Nat)
    (sm : List (String × String)) (h : values.length ≤ b + mo * ms) :
    getValue values b mo ms sm = none := by
  simp only [getValue]
  rw [List.get?_eq_none.2 h]
  split <;> rfl

theorem tripleEnum_pairwise (a b c : Nat) : (tripleEnum a b c).Pairwise lexLT := by
  unfold tripleEnum
  rw [List.flatMap_def, List.pairwise_flatten]
  constructor
  · intro l hl
    rw [List.mem_map] at hl
    obtain ⟨yi, hyi, rfl⟩ := hl
    rw [List.flatMap_def, List.pairwise_flatten]
    constructor
    · intro l2 hl2
      rw [List.mem_map] at hl2
      obtain ⟨pi, hpi, rfl⟩ := hl2
      rw [List.pairwise_map]
      refine (List.pairwise_lt_range c).imp ?_
      intro t1 t2 h12
      exact Or.inr ⟨rfl, Or.inr ⟨rfl, h12⟩⟩
    · rw [List.pairwise_map]
      refine (List.pairwise_lt_range b).imp ?_
      intro p1 p2 h12 x hx y hy
      rw [List.mem_map] at hx hy
      obtain ⟨t1, _, rfl⟩ := hx
      obtain ⟨t2, _, rfl⟩ := hy
      exact Or.inr ⟨rfl, Or.inl h12⟩
  · rw [List.pairwise_map]
    refine (List.pairwise_lt_range a).imp ?_
    intro y1 y2 h12 x hx y hy
    have hx1 : x.1 = y1 := by
      rw [List.mem_flatMap] at hx
      obtain ⟨pi, _, hx⟩ := hx
      rw [List.mem_map] at hx
      obtain ⟨ti, _, rfl⟩ := hx
      rfl
    have hy1 : y.1 = y2 := by
      rw [List.mem_flatMap] at hy
      obtain ⟨pi, _, hy⟩ := hy
      rw [List.mem_map] at hy
      obtain ⟨ti, _, rfl⟩ := hy
      rfl
    exact Or.inl (by rw [hx1, hy1]; exact h12)

theorem filterMap_eq_filter_filterMap {α β : Type} (f : α → Option β) (l : List α) :
    l.filterMap f = (l.filter (fun x => (f x).isSome)).filterMap f := by
  induction l with
  | nil => rfl
  | cons x xs ih =>
    cases hf : f x <;>
      simp [List.filterMap_cons, List.filter_cons, hf, ih]

theorem sortByPosition_perm (l : List (String × Int)) : (sortByPosition l).Perm l :=
  List.perm_insertionSort _ l

theorem sortByPosition_pairwise_le (l : List (String × Int)) :
    (sortByPosition l).Pairwise (fun a b => a.2 ≤ b.2) := by
  unfold sortByPosition
  haveI : IsTotal (String × Int) (fun a b => a.2 ≤ b.2) := ⟨fun a b => le_total a.2 b.2⟩
  haveI : IsTrans (String × Int) (fun a b => a.2 ≤ b.2) :=
    ⟨fun a b c h1 h2 => le_trans h1 h2⟩
  exact List.sorted_insertionSort _ l

theorem sortByPosition_eq_of_perm (l1 l2 : List (String × Int)) (hperm : l1.Perm l2)
    (hinj : ∀ e1 ∈ l1, ∀ e2 ∈ l1, e1.2 = e2.2 → e1 = e2) :
    sortByPosition l1 = sortByPosition l2 := by
  have hmem1 : ∀ x ∈ sortByPosition l1, x ∈ l1 :=
    fun x hx => (sortByPosition_perm l1).mem_iff.1 hx
  have hmem2 : ∀ x ∈ sortByPosition l2, x ∈ l1 :=
    fun x hx => hperm.mem_iff.2 ((sortByPosition_perm l2).mem_iff.1 hx)
  have hs1 : List.Pairwise (fun a b : String × Int => a.2 < b.2 ∨ a = b) (sortByPosition l1) :=
    List.Pairwise.imp_of_mem
      (fun ha hb hle => by
        rcases lt_or_eq_of_le hle with hlt | he
        · exact Or.inl hlt
        · exact Or.inr (hinj _ (hmem1 _ ha) _ (hmem1 _ hb) he))
      (sortByPosition_pairwise_le l1)
  have hs2 : List.Pairwise (fun a b : String × Int => a.2 < b.2 ∨ a = b) (sortByPosition l2) :=
    List.Pairwise.imp_of_mem
      (fun ha hb hle => by
        rcases lt_or_eq_of_le hle with hlt | he
        · exact Or.inl hlt
        · exact Or.inr (hinj _ (hmem2 _ ha) _ (hmem2 _ hb) he))
      (sortByPosition_pairwise_le l2)
  have hp : (sortByPosition l1).Perm (sortByPosition l2) :=
    (sortByPosition_perm l1).trans (hperm.trans (sortByPosition_perm l2).symm)
  haveI : IsAntisymm (String × Int) (fun a b => a.2 < b.2 ∨ a = b) := by
    constructor
    intro a b hab hba
    rcases hab with h1 | h1
    · rcases hba with h2 | h2
      · omega
      · exact h2.symm
    · exact h1
  exact List.eq_of_perm_of_sorted hp hs1 hs2

/-! ## Claim theorems -/

/-- **C1, counterexample.** The status map contains an entry keyed by the
exact probed flat offset (the decimal string "0"), yet `getValue` returns
the literal array value 5, not `null`: the source tests the *truthiness*
of the status string, and the empty string is falsy. -/
theorem claim1_override_counterexample :
    assocLookup [("0", "")] (toString (0 + 0 * 1)) = some "" ∧
    getValue [some (5 : ℚ)] 0 0 1 [("0", "")] = some 5 := by
  exact ⟨rfl, rfl⟩

/-- **C1, amended.** If the status map contains an entry with a non-empty
status string keyed by the probed flat offset (as a decimal string), the
resolved metric value is `null` regardless of the literal array value. -/
theorem claim1_override_forces_null (values : List (Option ℚ)) (b mo ms : Nat)
    (sm : List (String × String)) (s : String)
    (hs : assocLookup sm (toString (b + mo * ms)) = some s) (hne : s ≠ "") :
    getValue values b mo ms sm = none := by
  simp only [getValue]
  have ht : statusTruthy sm (toString (b + mo * ms)) = true := by
    simp only [statusTruthy, hs]
    simpa using hne
  rw [ht]
  simp

/-- **C1 witness.** A concrete masked cell: offset 0 carries the literal 5
but a non-empty status entry, so the resolved value is `null`. -/
theorem claim1_override_forces_null_witness :
    getValue [some (5 : ℚ)] 0 0 1 [("0", "x")] = none :=
  claim1_override_forces_null [some (5 : ℚ)] 0 0 1 [("0", "x")] "x" rfl (by decide)

/-- **C4.** For every non-empty size list the stride table satisfies
`stride[n-1] = 1` and `stride[i] = stride[i+1] * size[i+1]`; the flat
offset of a cell is the sum over dimensions of `index_i * stride_i`; and
`getValue` probes the array only through the combined offset
`base + metricPosition * metricStride`. -/
theorem claim4_strides_and_offsets :
    (∀ sizes : List Nat, sizes ≠ [] →
      (computeStrides sizes).length = sizes.length ∧
      (computeStrides sizes).getD (sizes.length - 1) 0 = 1 ∧
      ∀ i, i + 1 < sizes.length →
        (computeStrides sizes).getD i 0 =
          (computeStrides sizes).getD (i + 1) 0 * sizes.getD (i + 1) 0) ∧
    (∀ (indices dimPositions strides : List Nat) (numDims : Nat),
      computeIndex indices dimPositions strides numDims =
        ((indices.zip dimPositions).map (fun p => p.1 * strides.getD p.2 0)).sum) ∧
    (∀ (values : List (Option ℚ)) (sm : List (String × String)) (b mo ms b' mo' ms' : Nat),
      b + mo * ms = b' + mo' * ms' →
      getValue values b mo ms sm = getValue values b' mo' ms' sm) := by
  refine ⟨fun sizes h => ⟨computeStrides_length sizes, computeStrides_last sizes h,
      fun i hi => computeStrides_step sizes i hi⟩,
    fun indices dimPositions strides numDims =>
      computeIndex_eq_sum indices dimPositions strides numDims,
    fun v sm b mo ms b' mo' ms' h => getValue_offset_congr v sm b mo ms b' mo' ms' h⟩

/-- **C4 witness.** The strides of the size list [1, 1, 4, 2] (the spec's
running example) and a concrete offset congruence. -/
theorem claim4_witness :
    (computeStrides [1, 1, 4, 2]).getD ([1, 1, 4, 2].length - 1) 0 = 1 ∧
    (computeStrides [1, 1, 4, 2]).getD 0 0 =
      (computeStrides [1, 1, 4, 2]).getD 1 0 * [1, 1, 4, 2].getD 1 0 ∧
    getValue [some (5 : ℚ)] 2 3 2 [] = getValue [some (5 : ℚ)] 8 0 1 [] :=
  ⟨(claim4_strides_and_offsets.1 [1, 1, 4, 2] (by decide)).2.1,
   (claim4_strides_and_offsets.1 [1, 1, 4, 2] (by decide)).2.2 0 (by decide),
   claim4_strides_and_offsets.2.2 [some (5 : ℚ)] [] 2 3 2 8 0 1 (by decide)⟩

/-- **C10.** The value lookup is total over offsets: any probe at or past
the end of the value array resolves to `null`, never an error; and the
decoder accepts a payload whose declared sizes multiply to 2 while the
value array is empty, producing 0 records and 1 skipped cell. -/
theorem claim10_total_value_lookup :
    (∀ (values : List (Option ℚ)) (b mo ms : Nat) (sm : List (String × String)),
      values.length ≤ b + mo * ms → getValue values b mo ms sm = none) ∧
    jsShortValues.size.prod = 2 ∧ jsShortValues.value.length = 0 ∧
    transform jsShortValues "test_source" statfinMappings =
      .ok { records := [], skipped := 1, sourceName := "test_source",
            buildingTypeMappings := statfinMappings } := by
  refine ⟨fun v b mo ms sm h => getValue_out_of_range v b mo ms sm h, rfl, rfl, rfl⟩

/-- **C10 witness.** A concrete out-of-range probe resolving to `null`. -/
theorem claim10_witness : getValue ([] : List (Option ℚ)) 0 1 1 [] = none :=
  claim10_total_value_lookup.1 [] 0 1 1 [] (by decide)

theorem bdl_error_mem {dobj : List (String × DimensionObj)} {ids : List String} {e : String}
    (h : buildDimensionLookup dobj ids = .error e) :
    ∃ d ∈ ids, categoryIndexOf dobj d = none := by
  induction ids with
  | nil => simp [buildDimensionLookup] at h
  | cons d rest ih =>
    rw [buildDimensionLookup] at h
    cases hc : categoryIndexOf dobj d with
    | none => exact ⟨d, List.mem_cons_self d rest, hc⟩
    | some idx =>
      rw [hc] at h
      cases hr : buildDimensionLookup dobj rest with
      | error e2 =>
        obtain ⟨d2, hd2, hc2⟩ := ih (hr.trans (by rw [hr] at h; cases h; rfl))
        exact ⟨d2, List.mem_cons_of_mem _ hd2, hc2⟩
      | ok tails =>
        rw [hr] at h
        exact absurd h (by simp)

theorem bdl_ok_all_some {dobj : List (String × DimensionObj)} {ids : List String}
    {dims : List (List String)} (h : buildDimensionLookup dobj ids = .ok dims) :
    ∀ d ∈ ids, (categoryIndexOf dobj d).isSome := by
  induction ids generalizing dims with
  | nil => intro d hd; simp at hd
  | cons d0 rest ih =>
    intro d hd
    rw [buildDimensionLookup] at h
    cases hc : categoryIndexOf dobj d0 with
    | none => rw [hc] at h; exact absurd h (by simp)
    | some idx =>
      rw [hc] at h
      cases hr : buildDimensionLookup dobj rest with
      | error e2 => rw [hr] at h; exact absurd h (by simp)
      | ok tails =>
        rcases List.mem_cons.1 hd with rfl | hd2
        · simp [hc]
        · exact ih hr d hd2

theorem bdl_ok_of_all_some {dobj : List (String × DimensionObj)} {ids : List String}
    (h : ∀ d ∈ ids, (categoryIndexOf dobj d).isSome) :
    ∃ dims, buildDimensionLookup dobj ids = .ok dims := by
  induction ids with
  | nil => exact ⟨[], rfl⟩
  | cons d0 rest ih =>
    obtain ⟨dims, hdims⟩ := ih (fun d hd => h d (List.mem_cons_of_mem _ hd))
    have h0 := h d0 (List.mem_cons_self d0 rest)
    cases hc : categoryIndexOf dobj d0 with
    | none => rw [hc] at h0; exact absurd h0 (by simp)
    | some idx =>
      refine ⟨(sortByPosition idx).map (fun e => e.1) :: dims, ?_⟩
      rw [buildDimensionLookup, hc, hdims]

theorem transform_class_error {js : JsonStat} {src : String}
    {maps : List BuildingTypeMapping} (hk : js.klass ≠ "dataset") :
    transform js src maps = .error ("Unexpected json-stat2 class: " ++ js.klass) := by
  unfold transform
  rw [if_pos hk]

theorem transform_bdl_error {js : JsonStat} {src : String} {maps : List BuildingTypeMapping}
    {e : String} (hk : js.klass = "dataset")
    (hbd : buildDimensionLookup js.dimension js.id = .error e) :
    transform js src maps = .error e := by
  unfold transform
  rw [if_neg (by simp [hk]), hbd]

theorem transform_role_error {js : JsonStat} {src : String} {maps : List BuildingTypeMapping}
    {dims : List (List String)} (hk : js.klass = "dataset")
    (hbd : buildDimensionLookup js.dimension js.id = .ok dims)
    (hrole : missingRole js) :
    transform js src maps =
      .error ("Missing expected dimension(s). Found: " ++ String.intercalate ", " js.id) := by
  unfold transform
  rw [if_neg (by simp [hk]), hbd]
  cases hv : js.id.findIdx? (fun s => s == "Vuosi") <;>
  cases hp : js.id.findIdx? (fun s => s == "Postinumero") <;>
  cases ht : js.id.findIdx? (fun s => s == "Talotyyppi") <;>
  cases hm : js.id.findIdx? (fun s => s == "Tiedot") <;>
    first
    | rfl
    | (exfalso
       rcases hrole with h | h | h | h <;> simp_all)

theorem transform_metric_error {js : JsonStat} {src : String} {maps : List BuildingTypeMapping}
    {dims : List (List String)} {yI pI tI mI : Nat} (hk : js.klass = "dataset")
    (hbd : buildDimensionLookup js.dimension js.id = .ok dims)
    (hy : js.id.findIdx? (fun s => s == "Vuosi") = some yI)
    (hp : js.id.findIdx? (fun s => s == "Postinumero") = some pI)
    (ht : js.id.findIdx? (fun s => s == "Talotyyppi") = some tI)
    (hm : js.id.findIdx? (fun s => s == "Tiedot") = some mI)
    (hmet : (((dims.getD mI []).findIdx? (fun s => s == METRIC_PRICE)).isNone &&
        ((dims.getD mI []).findIdx? (fun s => s == METRIC_COUNT)).isNone) = true) :
    transform js src maps = .error ("Neither price nor count metric found. Available: " ++
      String.intercalate ", " (dims.getD mI [])) := by
  unfold transform
  rw [if_neg (by simp [hk]), hbd, hy, hp, ht, hm]
  simp only [hmet, if_true]

theorem transform_ok_form {js : JsonStat} {src : String} {maps : List BuildingTypeMapping}
    {dims : List (List String)} {yI pI tI mI : Nat} (hk : js.klass = "dataset")
    (hbd : buildDimensionLookup js.dimension js.id = .ok dims)
    (hy : js.id.findIdx? (fun s => s == "Vuosi") = some yI)
    (hp : js.id.findIdx? (fun s => s == "Postinumero") = some pI)
    (ht : js.id.findIdx? (fun s => s == "Talotyyppi") = some tI)
    (hm : js.id.findIdx? (fun s => s == "Tiedot") = some mI)
    (hmet : (((dims.getD mI []).findIdx? (fun s => s == METRIC_PRICE)).isNone &&
        ((dims.getD mI []).findIdx? (fun s => s == METRIC_COUNT)).isNone) = false) :
    transform js src maps = .ok
      { records := (runCells (mkCtx js dims yI pI tI mI maps src)).filterMap id
        skipped := (runCells (mkCtx js dims yI pI tI mI maps src)).countP (fun o => o.isNone)
        sourceName := src
        buildingTypeMappings := maps } := by
  unfold transform
  rw [if_neg (by simp [hk]), hbd, hy, hp, ht, hm]
  simp only [hmet, Bool.false_eq_true, if_false]

theorem processCell_some_inv {c : TraversalCtx} {t : Nat × Nat × Nat} {r0 : PriceRecord}
    (h : processCell c t = some r0) :
    ∃ bt, btMapGet c.mappings (c.typeCodes.getD t.2.2 "") = some bt ∧ (bt == "") = false ∧
      ((cellMetricValue c t.1 t.2.1 t.2.2 c.priceMetricIdx).isNone &&
        (cellMetricValue c t.1 t.2.1 t.2.2 c.countMetricIdx).isNone) = false ∧
      r0 = { postalCode := c.postalCodes.getD t.2.1 ""
             buildingType := bt
             date := c.yearCodes.getD t.1 "" ++ "-01-01T00:00:00Z"
             pricePerSqm := cellMetricValue c t.1 t.2.1 t.2.2 c.priceMetricIdx
             transactionCount :=
               (cellMetricValue c t.1 t.2.1 t.2.2 c.countMetricIdx).map jsRound
             sourceName := c.sourceName } := by
  unfold processCell at h
  split at h
  · exact absurd h (by simp)
  · rename_i bt hbt
    split at h
    · exact absurd h (by simp)
    · rename_i hbe
      split at h
      · exact absurd h (by simp)
      · rename_i hnn
        injection h with h
        exact ⟨bt, hbt, by simpa using hbe,
          by simp only [Bool.not_eq_true] at hnn; exact hnn, h.symm⟩

theorem mem_runCells_filterMap {c : TraversalCtx} {r0 : PriceRecord}
    (h : r0 ∈ (runCells c).filterMap id) :
    ∃ t : Nat × Nat × Nat,
      (t.1 < c.yearCodes.length ∧ t.2.1 < c.postalCodes.length ∧
        t.2.2 < c.typeCodes.length) ∧ processCell c t = some r0 := by
  rw [List.mem_filterMap] at h
  obtain ⟨o, ho, hid⟩ := h
  cases o with
  | none => simp at hid
  | some x =>
    have hx : x = r0 := by simpa using hid
    subst hx
    unfold runCells at ho
    rw [List.mem_map] at ho
    obtain ⟨t, htm, hpc⟩ := ho
    exact ⟨t, mem_tripleEnum.1 htm, hpc⟩

/-- **C2.** Every (period, area, category) triple of the traversal is
accounted for exactly once: for any payload passing the schema checks,
the decode succeeds, the records are exactly the non-skipped cells of the
traversal, the skip counter counts exactly the skipped cells, and
`records.length + skipped` equals periods × areas × categories. -/
theorem claim2_triple_accounting (js : JsonStat) (src : String)
    (maps : List BuildingTypeMapping) (dims : List (List String)) (yI pI tI mI : Nat)
    (hk : js.klass = "dataset")
    (hbd : buildDimensionLookup js.dimension js.id = .ok dims)
    (hy : js.id.findIdx? (fun s => s == "Vuosi") = some yI)
    (hp : js.id.findIdx? (fun s => s == "Postinumero") = some pI)
    (ht : js.id.findIdx? (fun s => s == "Talotyyppi") = some tI)
    (hm : js.id.findIdx? (fun s => s == "Tiedot") = some mI)
    (hmet : (((dims.getD mI []).findIdx? (fun s => s == METRIC_PRICE)).isNone &&
        ((dims.getD mI []).findIdx? (fun s => s == METRIC_COUNT)).isNone) = false) :
    ∃ r, transform js src maps = .ok r ∧
      r.records = (runCells (mkCtx js dims yI pI tI mI maps src)).filterMap id ∧
      r.skipped = (runCells (mkCtx js dims yI pI tI mI maps src)).countP (fun o => o.isNone) ∧
      r.records.length + r.skipped =
        (dims.getD yI []).length * ((dims.getD pI []).length * (dims.getD tI []).length) := by
  refine ⟨_, transform_ok_form hk hbd hy hp ht hm hmet, rfl, rfl, ?_⟩
  have h1 := length_filterMap_id_add_countP (runCells (mkCtx js dims yI pI tI mI maps src))
  rw [h1]
  unfold runCells
  rw [List.length_map, tripleEnum_length]
  rfl

/-- **C2 witness.** The happy-path dataset: 1 × 1 × 4 cells, 4 records,
0 skipped. -/
theorem claim2_witness :
    ∃ r, transform jsHappy "test_source" statfinMappings = .ok r ∧
      r.records = (runCells (mkCtx jsHappy
        [["2024"], ["00400"], ["1", "2", "3", "5"], [METRIC_PRICE, METRIC_COUNT]]
        0 1 2 3 statfinMappings "test_source")).filterMap id ∧
      r.skipped = (runCells (mkCtx jsHappy
        [["2024"], ["00400"], ["1", "2", "3", "5"], [METRIC_PRICE, METRIC_COUNT]]
        0 1 2 3 statfinMappings "test_source")).countP (fun o => o.isNone) ∧
      r.records.length + r.skipped = 1 * (1 * 4) :=
  claim2_triple_accounting jsHappy "test_source" statfinMappings
    [["2024"], ["00400"], ["1", "2", "3", "5"], [METRIC_PRICE, METRIC_COUNT]]
    0 1 2 3 rfl rfl rfl rfl rfl rfl rfl

/-- **C6.** The decode completes and returns normally for every payload
passing the schema-level checks (per-cell conditions never raise), and in
particular the zero-category dataset decodes to 0 records and 0 skipped. -/
theorem claim6_decode_completes (js : JsonStat) (src : String)
    (maps : List BuildingTypeMapping) (dims : List (List String)) (yI pI tI mI : Nat)
    (hk : js.klass = "dataset")
    (hbd : buildDimensionLookup js.dimension js.id = .ok dims)
    (hy : js.id.findIdx? (fun s => s == "Vuosi") = some yI)
    (hp : js.id.findIdx? (fun s => s == "Postinumero") = some pI)
    (ht : js.id.findIdx? (fun s => s == "Talotyyppi") = some tI)
    (hm : js.id.findIdx? (fun s => s == "Tiedot") = some mI)
    (hmet : (((dims.getD mI []).findIdx? (fun s => s == METRIC_PRICE)).isNone &&
        ((dims.getD mI []).findIdx? (fun s => s == METRIC_COUNT)).isNone) = false) :
    (∃ r, transform js src maps = .ok r) ∧
    transform jsEmptyYears "test_source" statfinMappings =
      .ok { records := [], skipped := 0, sourceName := "test_source",
            buildingTypeMappings := statfinMappings } :=
  ⟨⟨_, transform_ok_form hk hbd hy hp ht hm hmet⟩, rfl⟩

/-- **C6 witness.** Applied to the zero-category dataset itself. -/
theorem claim6_witness :
    (∃ r, transform jsEmptyYears "test_source" statfinMappings = .ok r) ∧
    transform jsEmptyYears "test_source" statfinMappings =
      .ok { records := [], skipped := 0, sourceName := "test_source",
            buildingTypeMappings := statfinMappings } :=
  claim6_decode_completes jsEmptyYears "test_source" statfinMappings
    [[], ["00100"], ["1"], [METRIC_PRICE, METRIC_COUNT]]
    0 1 2 3 rfl rfl rfl rfl rfl rfl rfl

/-- **C9.** The decoder is deterministic and idempotent: two invocations on
the same payload, source identifier and mapping table agree on every
output component (records and their order, skip count, source name,
applied mappings). -/
theorem claim9_deterministic (js : JsonStat) (src : String)
    (maps : List BuildingTypeMapping) (r1 r2 : TransformResult)
    (h1 : transform js src maps = .ok r1) (h2 : transform js src maps = .ok r2) :
    r1.records = r2.records ∧ r1.skipped = r2.skipped ∧
    r1.sourceName = r2.sourceName ∧ r1.buildingTypeMappings = r2.buildingTypeMappings := by
  rw [h1] at h2
  injection h2 with h
  subst h
  exact ⟨rfl, rfl, rfl, rfl⟩

/-- **C9 witness.** Applied to a concrete decode. -/
theorem claim9_witness :
    ({ records := [], skipped := 0, sourceName := "test_source",
       buildingTypeMappings := statfinMappings } : TransformResult).records =
      ({ records := [], skipped := 0, sourceName := "test_source",
         buildingTypeMappings := statfinMappings } : TransformResult).records ∧
    (0 : Nat) = 0 ∧ "test_source" = "test_source" ∧ statfinMappings = statfinMappings :=
  claim9_deterministic jsEmptyYears "test_source" statfinMappings
    { records := [], skipped := 0, sourceName := "test_source",
      buildingTypeMappings := statfinMappings }
    { records := [], skipped := 0, sourceName := "test_source",
      buildingTypeMappings := statfinMappings }
    rfl rfl

/-- **C3.** Emitted records appear in deterministic order: the emitting
cells of the traversal are strictly lexicographically increasing in
(period position, area position, category position), and the per-dimension
code lists are independent of the key iteration order of the payload's
category-index objects (sorting entries by unique position values is
permutation-invariant). -/
theorem claim3_deterministic_order (js : JsonStat) (src : String)
    (maps : List BuildingTypeMapping) (dims : List (List String)) (yI pI tI mI : Nat)
    (hk : js.klass = "dataset")
    (hbd : buildDimensionLookup js.dimension js.id = .ok dims)
    (hy : js.id.findIdx? (fun s => s == "Vuosi") = some yI)
    (hp : js.id.findIdx? (fun s => s == "Postinumero") = some pI)
    (ht : js.id.findIdx? (fun s => s == "Talotyyppi") = some tI)
    (hm : js.id.findIdx? (fun s => s == "Tiedot") = some mI)
    (hmet : (((dims.getD mI []).findIdx? (fun s => s == METRIC_PRICE)).isNone &&
        ((dims.getD mI []).findIdx? (fun s => s == METRIC_COUNT)).isNone) = false) :
    (∃ r, transform js src maps = .ok r ∧
      (emittedTriples (mkCtx js dims yI pI tI mI maps src)).Pairwise lexLT ∧
      r.records = (emittedTriples (mkCtx js dims yI pI tI mI maps src)).filterMap
        (processCell (mkCtx js dims yI pI tI mI maps src))) ∧
    (∀ l1 l2 : List (String × Int), l1.Perm l2 →
      (∀ e1 ∈ l1, ∀ e2 ∈ l1, e1.2 = e2.2 → e1 = e2) →
      sortByPosition l1 = sortByPosition l2) := by
  constructor
  · refine ⟨_, transform_ok_form hk hbd hy hp ht hm hmet, ?_, ?_⟩
    · unfold emittedTriples
      exact (tripleEnum_pairwise _ _ _).filter _
    · show (runCells (mkCtx js dims yI pI tI mI maps src)).filterMap id =
        (emittedTriples (mkCtx js dims yI pI tI mI maps src)).filterMap
          (processCell (mkCtx js dims yI pI tI mI maps src))
      unfold runCells emittedTriples
      rw [List.filterMap_map]
      simp only [Function.id_comp]
      exact filterMap_eq_filter_filterMap _ _
  · exact fun l1 l2 hperm hinj => sortByPosition_eq_of_perm l1 l2 hperm hinj

/-- **C3 witness.** Applied to the happy-path dataset, plus a concrete
permutation of category-index entries sorting to the same code order. -/
theorem claim3_witness :
    sortByPosition [("b", (0 : Int)), ("a", 1)] =
      sortByPosition [("a", (1 : Int)), ("b", 0)] ∧
    ∃ r, transform jsHappy "test_source" statfinMappings = .ok r := by
  obtain ⟨⟨r, hr, _, _⟩, hsort⟩ := claim3_deterministic_order jsHappy "test_source"
    statfinMappings [["2024"], ["00400"], ["1", "2", "3", "5"], [METRIC_PRICE, METRIC_COUNT]]
    0 1 2 3 rfl rfl rfl rfl rfl rfl rfl
  exact ⟨hsort _ _ (List.Perm.swap ("a", (1 : Int)) ("b", 0) []) (by decide), r, hr⟩

/-- **C5, counterexample.** For a payload whose metric role `Tiedot` is
absent, the decode aborts, but the error message lists the dimension ids
that were *found* and never mentions the missing role name — contrary to
the claim that the error reports which roles are missing. -/
theorem claim5_counterexample :
    jsNoMetricDim.id.findIdx? (fun s => s == "Tiedot") = none ∧
    transform jsNoMetricDim "src" [] =
      .error "Missing expected dimension(s). Found: Vuosi, Postinumero, Talotyyppi" ∧
    containsStr "Missing expected dimension(s). Found: Vuosi, Postinumero, Talotyyppi"
      "Tiedot" = false :=
  ⟨rfl, rfl, rfl⟩

/-- **C5, amended.** The decode aborts with an error exactly when a
structural problem is present (wrong class, a dimension without a
category index, a missing required role, or no recognized metric); for a
missing role the error message reports the dimension ids that were found,
not the names of the missing roles. -/
theorem claim5_schema_errors (js : JsonStat) (src : String)
    (maps : List BuildingTypeMapping) :
    ((∃ e, transform js src maps = .error e) ↔ schemaProblem js) ∧
    (js.klass = "dataset" → ∀ dims, buildDimensionLookup js.dimension js.id = .ok dims →
      missingRole js →
      transform js src maps =
        .error ("Missing expected dimension(s). Found: " ++ String.intercalate ", " js.id)) := by
  constructor
  · by_cases hk : js.klass = "dataset"
    · cases hbd : buildDimensionLookup js.dimension js.id with
      | error e =>
        exact iff_of_true ⟨e, transform_bdl_error hk hbd⟩
          (Or.inr (Or.inl (bdl_error_mem hbd)))
      | ok dims =>
        by_cases hrole : missingRole js
        · exact iff_of_true ⟨_, transform_role_error hk hbd hrole⟩
            (Or.inr (Or.inr (Or.inl hrole)))
        · obtain ⟨yI, hy⟩ : ∃ v, js.id.findIdx? (fun s => s == "Vuosi") = some v := by
            cases h : js.id.findIdx? (fun s => s == "Vuosi") with
            | none => exact absurd (Or.inl h) hrole
            | some v => exact ⟨v, rfl⟩
          obtain ⟨pI, hp⟩ : ∃ v, js.id.findIdx? (fun s => s == "Postinumero") = some v := by
            cases h : js.id.findIdx? (fun s => s == "Postinumero") with
            | none => exact absurd (Or.inr (Or.inl h)) hrole
            | some v => exact ⟨v, rfl⟩
          obtain ⟨tI, ht⟩ : ∃ v, js.id.findIdx? (fun s => s == "Talotyyppi") = some v := by
            cases h : js.id.findIdx? (fun s => s == "Talotyyppi") with
            | none => exact absurd (Or.inr (Or.inr (Or.inl h))) hrole
            | some v => exact ⟨v, rfl⟩
          obtain ⟨mI, hm⟩ : ∃ v, js.id.findIdx? (fun s => s == "Tiedot") = some v := by
            cases h : js.id.findIdx? (fun s => s == "Tiedot") with
            | none => exact absurd (Or.inr (Or.inr (Or.inr h))) hrole
            | some v => exact ⟨v, rfl⟩
          by_cases hmet : (((dims.getD mI []).findIdx? (fun s => s == METRIC_PRICE)).isNone &&
              ((dims.getD mI []).findIdx? (fun s => s == METRIC_COUNT)).isNone) = true
          · refine iff_of_true ⟨_, transform_metric_error hk hbd hy hp ht hm hmet⟩
              (Or.inr (Or.inr (Or.inr ?_)))
            intro dims2 mI2 hbd2 hm2
            rw [hbd] at hbd2
            injection hbd2 with hdd
            subst hdd
            rw [hm] at hm2
            injection hm2 with hmm
            subst hmm
            rw [Bool.and_eq_true] at hmet
            exact ⟨Option.isNone_iff_eq_none.1 hmet.1, Option.isNone_iff_eq_none.1 hmet.2⟩
          · have hmet2 : (((dims.getD mI []).findIdx?
                (fun s => s == METRIC_PRICE)).isNone &&
                ((dims.getD mI []).findIdx? (fun s => s == METRIC_COUNT)).isNone) = false := by
              revert hmet
              cases (((dims.getD mI []).findIdx? (fun s => s == METRIC_PRICE)).isNone &&
                ((dims.getD mI []).findIdx? (fun s => s == METRIC_COUNT)).isNone) <;> simp
            apply iff_of_false
            · rintro ⟨e, he⟩
              rw [transform_ok_form hk hbd hy hp ht hm hmet2] at he
              simp at he
            · rintro (h | h | h | h)
              · exact h hk
              · obtain ⟨d, hd, hcnone⟩ := h
                have hsome := bdl_ok_all_some hbd d hd
                rw [hcnone] at hsome
                simp at hsome
              · exact hrole h
              · obtain ⟨h1, h2⟩ := h dims mI hbd hm
                rw [h1, h2] at hmet2
                simp at hmet2
    · exact iff_of_true ⟨_, transform_class_error hk⟩ (Or.inl hk)
  · intro hk dims hbd hrole
    exact transform_role_error hk hbd hrole

/-- **C5 witness.** The amended message-content part applied to the
payload missing the `Tiedot` role. -/
theorem claim5_witness :
    transform jsNoMetricDim "src" [] =
      .error ("Missing expected dimension(s). Found: " ++
        String.intercalate ", " jsNoMetricDim.id) :=
  (claim5_schema_errors jsNoMetricDim "src" []).2 rfl [["2024"], ["00100"], ["1"]] rfl
    (Or.inr (Or.inr (Or.inr rfl)))

/-- **C7.** Every emitted record carries the area code and the period's
year code verbatim from their dimension lookups (the period rendered as
the first-of-year UTC instant `YYYY-01-01T00:00:00Z`), the canonical
category resolved from the mapping table at the verbatim raw category
code, the primary metric value unmodified, and the secondary metric
rounded with JavaScript `Math.round` when non-null. -/
theorem claim7_record_fields (js : JsonStat) (src : String)
    (maps : List BuildingTypeMapping) (dims : List (List String)) (yI pI tI mI : Nat)
    (hk : js.klass = "dataset")
    (hbd : buildDimensionLookup js.dimension js.id = .ok dims)
    (hy : js.id.findIdx? (fun s => s == "Vuosi") = some yI)
    (hp : js.id.findIdx? (fun s => s == "Postinumero") = some pI)
    (ht : js.id.findIdx? (fun s => s == "Talotyyppi") = some tI)
    (hm : js.id.findIdx? (fun s => s == "Tiedot") = some mI)
    (hmet : (((dims.getD mI []).findIdx? (fun s => s == METRIC_PRICE)).isNone &&
        ((dims.getD mI []).findIdx? (fun s => s == METRIC_COUNT)).isNone) = false) :
    ∃ r, transform js src maps = .ok r ∧
      ∀ r0 ∈ r.records, ∃ yi pi ti bt,
        yi < (dims.getD yI []).length ∧ pi < (dims.getD pI []).length ∧
        ti < (dims.getD tI []).length ∧
        btMapGet maps ((dims.getD tI []).getD ti "") = some bt ∧ bt ≠ "" ∧
        r0 = { postalCode := (dims.getD pI []).getD pi ""
               buildingType := bt
               date := (dims.getD yI []).getD yi "" ++ "-01-01T00:00:00Z"
               pricePerSqm := cellMetricValue (mkCtx js dims yI pI tI mI maps src) yi pi ti
                 ((dims.getD mI []).findIdx? (fun s => s == METRIC_PRICE))
               transactionCount :=
                 (cellMetricValue (mkCtx js dims yI pI tI mI maps src) yi pi ti
                   ((dims.getD mI []).findIdx? (fun s => s == METRIC_COUNT))).map jsRound
               sourceName := src } := by
  refine ⟨_, transform_ok_form hk hbd hy hp ht hm hmet, ?_⟩
  intro r0 hr0
  obtain ⟨t, hb, hpc⟩ := mem_runCells_filterMap hr0
  obtain ⟨bt, hbt, hbe, hnn, heq⟩ := processCell_some_inv hpc
  refine ⟨t.1, t.2.1, t.2.2, bt, hb.1, hb.2.1, hb.2.2, hbt, ?_, heq⟩
  intro hc
  subst hc
  simp at hbe

/-- **C7 witness.** Applied to the happy-path dataset: each record carries
the decoder's source name and the 2024 first-of-year instant. -/
theorem claim7_witness :
    ∃ r, transform jsHappy "test_source" statfinMappings = .ok r ∧
      ∀ r0 ∈ r.records, r0.sourceName = "test_source" ∧
        r0.date = "2024" ++ "-01-01T00:00:00Z" := by
  obtain ⟨r, hr, hall⟩ := claim7_record_fields jsHappy "test_source" statfinMappings
    [["2024"], ["00400"], ["1", "2", "3", "5"], [METRIC_PRICE, METRIC_COUNT]] 0 1 2 3
    rfl rfl rfl rfl rfl rfl rfl
  refine ⟨r, hr, ?_⟩
  intro r0 hr0
  obtain ⟨yi, pi, ti, bt, hyi, hpi, hti, hbt, hbe, heq⟩ := hall r0 hr0
  subst heq
  have hy1 : yi < 1 := hyi
  have hy0 : yi = 0 := Nat.lt_one_iff.1 hy1
  subst hy0
  exact ⟨rfl, rfl⟩

/-- **C8.** If exactly one recognized metric identifier is present, the
decode succeeds and the absent metric is `null` in every record; if
neither is present, the decode fails fatally with the descriptive
metric error. -/
theorem claim8_metric_presence (js : JsonStat) (src : String)
    (maps : List BuildingTypeMapping) (dims : List (List String)) (yI pI tI mI : Nat)
    (hk : js.klass = "dataset")
    (hbd : buildDimensionLookup js.dimension js.id = .ok dims)
    (hy : js.id.findIdx? (fun s => s == "Vuosi") = some yI)
    (hp : js.id.findIdx? (fun s => s == "Postinumero") = some pI)
    (ht : js.id.findIdx? (fun s => s == "Talotyyppi") = some tI)
    (hm : js.id.findIdx? (fun s => s == "Tiedot") = some mI) :
    (∀ k, (dims.getD mI []).findIdx? (fun s => s == METRIC_PRICE) = some k →
      (dims.getD mI []).findIdx? (fun s => s == METRIC_COUNT) = none →
      ∃ r, transform js src maps = .ok r ∧
        ∀ r0 ∈ r.records, r0.transactionCount = none) ∧
    (∀ k, (dims.getD mI []).findIdx? (fun s => s == METRIC_COUNT) = some k →
      (dims.getD mI []).findIdx? (fun s => s == METRIC_PRICE) = none →
      ∃ r, transform js src maps = .ok r ∧
        ∀ r0 ∈ r.records, r0.pricePerSqm = none) ∧
    ((dims.getD mI []).findIdx? (fun s => s == METRIC_PRICE) = none →
      (dims.getD mI []).findIdx? (fun s => s == METRIC_COUNT) = none →
      transform js src maps = .error ("Neither price nor count metric found. Available: " ++
        String.intercalate ", " (dims.getD mI []))) := by
  refine ⟨?_, ?_, ?_⟩
  · intro k hpk hcn
    have hmet : (((dims.getD mI []).findIdx? (fun s => s == METRIC_PRICE)).isNone &&
        ((dims.getD mI []).findIdx? (fun s => s == METRIC_COUNT)).isNone) = false := by
      rw [hpk]; simp
    refine ⟨_, transform_ok_form hk hbd hy hp ht hm hmet, ?_⟩
    intro r0 hr0
    obtain ⟨t, hb, hpc⟩ := mem_runCells_filterMap hr0
    obtain ⟨bt, hbt, hbe, hnn, heq⟩ := processCell_some_inv hpc
    rw [heq]
    have hcm : (mkCtx js dims yI pI tI mI maps src).countMetricIdx = none := hcn
    show (cellMetricValue (mkCtx js dims yI pI tI mI maps src) t.1 t.2.1 t.2.2
      (mkCtx js dims yI pI tI mI maps src).countMetricIdx).map jsRound = none
    rw [hcm]
    rfl
  · intro k hck hpn
    have hmet : (((dims.getD mI []).findIdx? (fun s => s == METRIC_PRICE)).isNone &&
        ((dims.getD mI []).findIdx? (fun s => s == METRIC_COUNT)).isNone) = false := by
      rw [hck]; simp
    refine ⟨_, transform_ok_form hk hbd hy hp ht hm hmet, ?_⟩
    intro r0 hr0
    obtain ⟨t, hb, hpc⟩ := mem_runCells_filterMap hr0
    obtain ⟨bt, hbt, hbe, hnn, heq⟩ := processCell_some_inv hpc
    rw [heq]
    have hcm : (mkCtx js dims yI pI tI mI maps src).priceMetricIdx = none := hpn
    show cellMetricValue (mkCtx js dims yI pI tI mI maps src) t.1 t.2.1 t.2.2
      (mkCtx js dims yI pI tI mI maps src).priceMetricIdx = none
    rw [hcm]
    rfl
  · intro hpn hcn
    have hmet : (((dims.getD mI []).findIdx? (fun s => s == METRIC_PRICE)).isNone &&
        ((dims.getD mI []).findIdx? (fun s => s == METRIC_COUNT)).isNone) = true := by
      rw [hpn, hcn]; rfl
    exact transform_metric_error hk hbd hy hp ht hm hmet

/-- **C8 witness.** Price-only and count-only datasets decode with the
absent metric `null` in every record. -/
theorem claim8_witness :
    (∃ r, transform jsPriceOnly "test_source" statfinMappings = .ok r ∧
      ∀ r0 ∈ r.records, r0.transactionCount = none) ∧
    (∃ r, transform jsCountOnly "test_source" statfinMappings = .ok r ∧
      ∀ r0 ∈ r.records, r0.pricePerSqm = none) :=
  ⟨(claim8_metric_presence jsPriceOnly "test_source" statfinMappings
      [["2024"], ["00400"], ["1"], [METRIC_PRICE]] 0 1 2 3
      rfl rfl rfl rfl rfl rfl).1 0 rfl rfl,
   (claim8_metric_presence jsCountOnly "test_source" statfinMappings
      [["2024"], ["00400"], ["1"], [METRIC_COUNT]] 0 1 2 3
      rfl rfl rfl rfl rfl rfl).2.1 0 rfl rfl⟩
